import Mathlib

/-!
Shallow embedding of the telemetry capture layer of `serhiihaniuk/grid`
(`src/src/App.tsx`): the bounded event buffer and telemetry service
(`createTelemetryService`), the extraction adapters
(`extractVisibleRowsData`, `extractSelectedRowsData`, `extractAllGridData`,
`onRowSelected`) and the debounced scroll tracker (`onBodyScroll`), together
with theorems settling the specification claims about them.

Machine reals that matter only additively/multiplicatively are modelled as
`ℚ`; JavaScript division (which can produce `NaN`/`Infinity`) is modelled by
the `JsNum` type.  `crypto.randomUUID()` is modelled as a fresh-id supply
threaded through the service state, and `new Date()` as an externally set
clock field.
-/

namespace Grid

/-- `interface RowData` from App.tsx. -/
structure RowData where
  id : Int
  product : String
  category : String
  price : ℚ
  quantity : ℚ
  inStock : Bool
  lastUpdated : String
  deriving Repr, DecidableEq

/-- JavaScript numbers as produced by division: a finite value, `NaN`,
or a signed infinity.  `jsDiv` below mirrors IEEE-754 division as JS
performs it on finite operands. -/
inductive JsNum where
  | num (x : ℚ)
  | nan
  | posInf
  | negInf
  deriving Repr, DecidableEq

/-- JavaScript `a / b` on finite operands: `0/0` is `NaN`, `x/0` for
`x ≠ 0` is a signed infinity, otherwise exact division. -/
def jsDiv (a b : ℚ) : JsNum :=
  if b = 0 then
    if a = 0 then JsNum.nan
    else if a > 0 then JsNum.posInf
    else JsNum.negInf
  else JsNum.num (a / b)

/-- Viewport block of the `visible_rows_extracted` payload. -/
structure ViewportInfo where
  firstRowIndex : Int
  lastRowIndex : Int
  visibleRowCount : Nat
  deriving Repr, DecidableEq

/-- Payload of `visible_rows_extracted`. -/
structure VisibleRowsPayload where
  viewport : ViewportInfo
  visibleRows : List RowData
  visibleProductIds : List Int
  totalValue : ℚ
  deriving Repr, DecidableEq

/-- Payload of `selected_rows_extracted`. -/
structure SelectedRowsPayload where
  selectedCount : Nat
  selectedRows : List RowData
  selectedIds : List Int
  totalSelectedValue : ℚ
  deriving Repr, DecidableEq

/-- One entry of the normalized column-state list in
`full_grid_state_extracted` (the fields picked out of AG Grid's
`getColumnState()` result). -/
structure ColumnStateEntry where
  colId : String
  width : Int
  hide : Bool
  sort : Option String
  sortIndex : Option Nat
  pinned : Option String
  deriving Repr, DecidableEq

/-- The active filter model (`getFilterModel()`): a mapping from column id
to that column's filter configuration, modelled as an association list with
an opaque textual configuration. -/
def FilterModel := List (String × String)
  deriving Repr, DecidableEq

/-- `gridMetadata` block of `full_grid_state_extracted`. -/
structure GridMetadata where
  totalRows : Nat
  displayedRows : Nat
  selectedRows : Nat
  deriving Repr, DecidableEq

/-- `aggregations` block of `full_grid_state_extracted`.  `avgPrice` is a
`JsNum` because the source computes it by JavaScript division. -/
structure FullAggregations where
  totalInventoryValue : ℚ
  avgPrice : JsNum
  inStockCount : Nat
  outOfStockCount : Nat
  deriving Repr, DecidableEq

/-- `viewport` block of `full_grid_state_extracted`. -/
structure FullViewport where
  firstRow : Int
  lastRow : Int
  deriving Repr, DecidableEq

/-- Payload of `full_grid_state_extracted`. -/
structure FullGridPayload where
  gridMetadata : GridMetadata
  allData : List RowData
  columnState : List ColumnStateEntry
  activeFilters : FilterModel
  viewport : FullViewport
  aggregations : FullAggregations
  deriving Repr, DecidableEq

/-- `viewport` block of `grid_scrolled`; `visibleRowCount` is
`lastRow - firstRow + 1`, an `Int` (the displayed indices may be `-1`). -/
structure ScrollViewport where
  firstRow : Int
  lastRow : Int
  visibleRowCount : Int
  deriving Repr, DecidableEq

/-- `scrollPosition` block of `grid_scrolled`. -/
structure ScrollPosition where
  top : ℚ
  left : ℚ
  deriving Repr, DecidableEq

/-- Payload of `grid_scrolled`. -/
structure GridScrolledPayload where
  scrollDirection : String
  viewport : ScrollViewport
  scrollPosition : ScrollPosition
  deriving Repr, DecidableEq

/-- Payload of `row_selected`. -/
structure RowSelectedPayload where
  rowId : Int
  rowData : RowData
  selectionSource : String
  deriving Repr, DecidableEq

/-- Payload of `grid_initialized`. -/
structure GridInitializedPayload where
  totalRows : Nat
  columns : List String
  gridVersion : String
  deriving Repr, DecidableEq

/-- The `data : unknown` field of a telemetry event, restricted to the six
payload shapes the application actually sends (§3 of the spec suggests this
tagged union as the typed view of the payloads). -/
inductive TelemetryData where
  | visibleRowsD (p : VisibleRowsPayload)
  | selectedRowsD (p : SelectedRowsPayload)
  | fullGridD (p : FullGridPayload)
  | scrolledD (p : GridScrolledPayload)
  | rowSelectedD (p : RowSelectedPayload)
  | gridInitializedD (p : GridInitializedPayload)
  deriving Repr, DecidableEq

/-- `interface TelemetryEvent`.  `id` models `crypto.randomUUID()` as a
fresh natural number from the service's supply; `timestamp` models the ISO
string of `new Date()` as a numeric clock value. -/
structure TelemetryEvent where
  id : Nat
  eventType : String
  timestamp : Nat
  data : TelemetryData
  deriving Repr, DecidableEq

/-- The buffer mutation performed by `send`:
`events.unshift(event); if (events.length > 50) events.pop();`. -/
def bufferInsert (event : TelemetryEvent) (events : List TelemetryEvent) :
    List TelemetryEvent :=
  let events := event :: events
  if events.length > 50 then events.dropLast else events

/-- State of the telemetry service created by `createTelemetryService`:
the `events` array, plus the fresh-id supply (modelling
`crypto.randomUUID()`), the clock (modelling `new Date()`), and a ghost
history `log` recording every event `send` has constructed and returned,
in arrival order (oldest first).  The log is specification-only: it is
never read by the operations. -/
structure ServiceState where
  events : List TelemetryEvent
  nextId : Nat
  now : Nat
  log : List TelemetryEvent
  deriving Repr, DecidableEq

/-- `telemetry.send(eventType, data)`: construct the event with a fresh id
and the current timestamp, insert at the head of the buffer (evicting the
tail past 50), and return the event. -/
def ServiceState.send (s : ServiceState) (eventType : String)
    (data : TelemetryData) : TelemetryEvent × ServiceState :=
  let event : TelemetryEvent :=
    { id := s.nextId, eventType := eventType, timestamp := s.now, data := data }
  (event,
    { events := bufferInsert event s.events
      nextId := s.nextId + 1
      now := s.now
      log := s.log ++ [event] })

/-- `telemetry.clear()`: `events.length = 0`. -/
def ServiceState.clear (s : ServiceState) : ServiceState :=
  { s with events := [] }

/-- The service as created by `createTelemetryService()`: empty buffer. -/
def initialService : ServiceState :=
  { events := [], nextId := 0, now := 0, log := [] }

/-- Run a sequence of `send` calls against the service. -/
def runSends (s : ServiceState) : List (String × TelemetryData) → ServiceState
  | [] => s
  | (ty, d) :: rest => runSends (s.send ty d).2 rest

/-!
### Reference model of the service's array

JavaScript arrays are mutable heap objects; whether a consumer holds a live
handle or a copy is a question of reference identity, so we model a heap of
arrays addressed by `Nat`.  `createTelemetryService` allocates the internal
`events` array and the returned object's `events` property stores that same
reference; `[...telemetry.events]` (the spread in `sendTelemetryEvent`)
allocates a fresh array with the current contents.
-/

/-- A heap of arrays of telemetry events, addressed by `Nat`; `next` is the
next fresh address. -/
structure Heap where
  store : Nat → List TelemetryEvent
  next : Nat

/-- Initial empty heap. -/
def emptyHeap : Heap := { store := fun _ => [], next := 0 }

/-- `createTelemetryService()` in the reference model: allocate the internal
`events` array (initially `[]`) and return its reference — the returned
object's `events` property holds exactly this reference. -/
def createTelemetryService (h : Heap) : Nat × Heap :=
  (h.next,
    { store := fun a => if a = h.next then [] else h.store a
      next := h.next + 1 })

/-- `telemetry.send` in the reference model: mutates the array at the
service's `events` reference in place (`unshift` + conditional `pop`). -/
def refSend (eventsRef : Nat) (e : TelemetryEvent) (h : Heap) : Heap :=
  { h with
    store := fun a =>
      if a = eventsRef then bufferInsert e (h.store eventsRef) else h.store a }

/-- `telemetry.clear()` in the reference model: `events.length = 0`
mutates the same array in place. -/
def refClear (eventsRef : Nat) (h : Heap) : Heap :=
  { h with store := fun a => if a = eventsRef then [] else h.store a }

/-- `[...telemetry.events]`, the spread copy taken in `sendTelemetryEvent`:
allocates a fresh array holding the buffer's current contents and returns
its reference. -/
def spreadSnapshot (eventsRef : Nat) (h : Heap) : Nat × Heap :=
  (h.next,
    { store := fun a => if a = h.next then h.store eventsRef else h.store a
      next := h.next + 1 })

/-- A later operation on the service: a `send` or a `clear`. -/
inductive ServiceOp where
  | sendOp (e : TelemetryEvent)
  | clearOp

/-- Run a sequence of service operations against the heap. -/
def runServiceOps (eventsRef : Nat) : List ServiceOp → Heap → Heap
  | [], h => h
  | ServiceOp.sendOp e :: rest, h => runServiceOps eventsRef rest (refSend eventsRef e h)
  | ServiceOp.clearOp :: rest, h => runServiceOps eventsRef rest (refClear eventsRef h)

/-- A concrete event used in counterexamples and witnesses. -/
def sampleEvent : TelemetryEvent :=
  { id := 0, eventType := "grid_initialized", timestamp := 0
    data := TelemetryData.gridInitializedD
      { totalRows := 15, columns := ["id"], gridVersion := "ag-grid-community" } }

/-!
### Grid capability surface and application state

The AG Grid api object, as queried by the extractors.  It is a live object:
its query results reflect the grid's current state, so functions that model
grid state over time take a `Nat → GridApi` map.
-/

/-- The grid capability surface (`GridApi`) restricted to the operations the
telemetry core consumes.  `rowNodes` models the node sequence visited by
`forEachNode`, with `none` for a node whose `data` is absent. -/
structure GridApi where
  getFirstDisplayedRowIndex : Int
  getLastDisplayedRowIndex : Int
  getDisplayedRowAtIndex : Int → Option RowData
  getSelectedRows : List RowData
  rowNodes : List (Option RowData)
  getColumnState : List ColumnStateEntry
  getFilterModel : FilterModel
  getDisplayedRowCount : Nat

/-- The index sequence traversed by `for (let i = first; i <= last; i++)`:
`[first, first+1, …, last]`, empty when `first > last`. -/
def intRange (first last : Int) : List Int :=
  (List.range (last + 1 - first).toNat).map (fun (k : Nat) => first + (k : Int))

/-- The `stats` React state. -/
structure Stats where
  totalEvents : Nat
  visibleRows : Nat
  selectedRows : Nat
  deriving Repr, DecidableEq

/-- Application state touched by the telemetry handlers: the shared service
plus the React state (`telemetryEvents`, `stats`). -/
structure AppState where
  svc : ServiceState
  telemetryEvents : List TelemetryEvent
  stats : Stats
  deriving Repr, DecidableEq

/-- `sendTelemetryEvent`: forward to `telemetry.send`, publish a spread copy
of the buffer to React state, and refresh `stats.totalEvents`. -/
def sendTelemetryEvent (eventType : String) (data : TelemetryData)
    (st : AppState) : AppState :=
  let es := st.svc.send eventType data
  { svc := es.2
    telemetryEvents := es.2.events
    stats := { st.stats with totalEvents := es.2.events.length } }

/-- `extractVisibleRowsData`: guard on grid availability, walk the displayed
index range collecting non-null row data, refresh `stats.visibleRows`, and
emit `visible_rows_extracted`. -/
def extractVisibleRowsData (gridApi : Option GridApi) (st : AppState) :
    AppState :=
  match gridApi with
  | none => st
  | some g =>
    let firstRow := g.getFirstDisplayedRowIndex
    let lastRow := g.getLastDisplayedRowIndex
    let visibleRows := (intRange firstRow lastRow).filterMap g.getDisplayedRowAtIndex
    let st := { st with stats := { st.stats with visibleRows := visibleRows.length } }
    sendTelemetryEvent "visible_rows_extracted"
      (TelemetryData.visibleRowsD
        { viewport :=
            { firstRowIndex := firstRow
              lastRowIndex := lastRow
              visibleRowCount := visibleRows.length }
          visibleRows := visibleRows
          visibleProductIds := visibleRows.map (fun r => r.id)
          totalValue := visibleRows.foldl (fun sum r => sum + r.price * r.quantity) 0 })
      st

/-- `extractSelectedRowsData`: guard on grid availability, query the
selected set atomically, refresh `stats.selectedRows`, and emit
`selected_rows_extracted`. -/
def extractSelectedRowsData (gridApi : Option GridApi) (st : AppState) :
    AppState :=
  match gridApi with
  | none => st
  | some g =>
    let selectedRows := g.getSelectedRows
    let st := { st with stats := { st.stats with selectedRows := selectedRows.length } }
    sendTelemetryEvent "selected_rows_extracted"
      (TelemetryData.selectedRowsD
        { selectedCount := selectedRows.length
          selectedRows := selectedRows
          selectedIds := selectedRows.map (fun row => row.id)
          totalSelectedValue :=
            selectedRows.foldl (fun sum r => sum + r.price * r.quantity) 0 })
      st

/-- `extractAllGridData`: guard on grid availability, iterate every row node
(`forEachNode`) collecting non-null data, query column state and filter
model, and emit `full_grid_state_extracted`.  Note `avgPrice` divides by
`allData.length` with no zero guard. -/
def extractAllGridData (gridApi : Option GridApi) (st : AppState) :
    AppState :=
  match gridApi with
  | none => st
  | some g =>
    let allData := g.rowNodes.filterMap id
    sendTelemetryEvent "full_grid_state_extracted"
      (TelemetryData.fullGridD
        { gridMetadata :=
            { totalRows := allData.length
              displayedRows := g.getDisplayedRowCount
              selectedRows := g.getSelectedRows.length }
          allData := allData
          columnState := g.getColumnState.map (fun col =>
            { colId := col.colId, width := col.width, hide := col.hide
              sort := col.sort, sortIndex := col.sortIndex, pinned := col.pinned })
          activeFilters := g.getFilterModel
          viewport :=
            { firstRow := g.getFirstDisplayedRowIndex
              lastRow := g.getLastDisplayedRowIndex }
          aggregations :=
            { totalInventoryValue :=
                allData.foldl (fun sum r => sum + r.price * r.quantity) 0
              avgPrice :=
                jsDiv (allData.foldl (fun sum r => sum + r.price) 0) allData.length
              inStockCount := (allData.filter (fun r => r.inStock)).length
              outOfStockCount := (allData.filter (fun r => !r.inStock)).length } })
      st

/-- `onRowSelected`: if the affected row transitioned to selected (and has
data), emit `row_selected`; in either direction refresh
`stats.selectedRows` from the grid when it is available. -/
def onRowSelected (gridApi : Option GridApi) (isSelected : Bool)
    (data : Option RowData) (st : AppState) : AppState :=
  let st :=
    if isSelected then
      match data with
      | some row =>
        sendTelemetryEvent "row_selected"
          (TelemetryData.rowSelectedD
            { rowId := row.id, rowData := row, selectionSource := "user_click" })
          st
      | none => st
    else st
  match gridApi with
  | some g =>
    { st with stats := { st.stats with selectedRows := g.getSelectedRows.length } }
  | none => st

/-- The payload of the most recently sent event (the last entry of the
service's arrival-ordered history), if any event has been sent. -/
def lastSent (st : AppState) : Option TelemetryData :=
  st.svc.log.getLast?.map (fun e => e.data)

/-- The `avgPrice` aggregate of the most recently sent event, when that
event is a `full_grid_state_extracted`. -/
def lastAvgPrice (st : AppState) : Option JsNum :=
  match lastSent st with
  | some (TelemetryData.fullGridD p) => some p.aggregations.avgPrice
  | _ => none

/-- The number of `row_selected` events sent so far. -/
def rowSelectedCount (st : AppState) : Nat :=
  (st.svc.log.filter (fun e => e.eventType == "row_selected")).length

/-!
### Scroll tracker

`onBodyScroll` debounces scroll events with a single timer handle
(`scrollTimeoutRef`).  The event loop is modelled explicitly: delivering a
scroll event at time `t` first lets a timer due at or before `t` fire, then
runs the handler; after the trace goes quiet the remaining timer (if any)
fires.  Times are milliseconds. -/

/-- A `BodyScrollEvent`: direction and raw scroll offsets. -/
structure ScrollEvent where
  direction : String
  top : ℚ
  left : ℚ
  deriving Repr, DecidableEq

/-- The `grid_scrolled` payload built by the timer callback from the grid
state `g` at fire time and the captured triggering event `ev`. -/
def scrolledPayload (g : GridApi) (ev : ScrollEvent) : GridScrolledPayload :=
  { scrollDirection := ev.direction
    viewport :=
      { firstRow := g.getFirstDisplayedRowIndex
        lastRow := g.getLastDisplayedRowIndex
        visibleRowCount :=
          g.getLastDisplayedRowIndex - g.getFirstDisplayedRowIndex + 1 }
    scrollPosition := { top := ev.top, left := ev.left } }

/-- Scroll-tracker state: `scrollTimeoutRef` is the armed timer (its fire
time and the captured triggering scroll event), or `none` when idle. -/
structure ScrollState where
  scrollTimeoutRef : Option (Nat × ScrollEvent)
  app : AppState

/-- The body of the debounce timer callback: re-query the current first and
last displayed indices from the grid and emit `grid_scrolled`. -/
def scrollTimerFire (g : GridApi) (ev : ScrollEvent) (st : AppState) :
    AppState :=
  sendTelemetryEvent "grid_scrolled"
    (TelemetryData.scrolledD (scrolledPayload g ev)) st

/-- `onBodyScroll` at time `t`: if the grid is unavailable, return;
otherwise cancel any armed timer (`clearTimeout`) and arm a fresh 300ms one
capturing the triggering event (`setTimeout(…, 300)`). -/
def onBodyScroll (gridApi : Option GridApi) (t : Nat) (ev : ScrollEvent)
    (s : ScrollState) : ScrollState :=
  match gridApi with
  | none => s
  | some _ => { s with scrollTimeoutRef := some (t + 300, ev) }

/-- Event-loop step preceding a delivery at time `t`: a timer due at or
before `t` fires first (the clock advances to its fire time and the payload
is built from the grid state at that time). -/
def fireDue (gridAt : Nat → GridApi) (t : Nat) (s : ScrollState) :
    ScrollState :=
  match s.scrollTimeoutRef with
  | some (ft, ev) =>
    if ft ≤ t then
      { scrollTimeoutRef := none
        app := scrollTimerFire (gridAt ft) ev
          { s.app with svc := { s.app.svc with now := ft } } }
    else s
  | none => s

/-- Deliver a timed trace of scroll events through the event loop. -/
def runScrollLoop (gridAt : Nat → GridApi) :
    List (Nat × ScrollEvent) → ScrollState → ScrollState
  | [], s => s
  | (t, ev) :: rest, s =>
    runScrollLoop gridAt rest
      (onBodyScroll (some (gridAt t)) t ev (fireDue gridAt t s))

/-- After the trace goes quiet: the still-armed timer, if any, fires. -/
def drainTimer (gridAt : Nat → GridApi) (s : ScrollState) : ScrollState :=
  match s.scrollTimeoutRef with
  | some (ft, ev) =>
    { scrollTimeoutRef := none
      app := scrollTimerFire (gridAt ft) ev
        { s.app with svc := { s.app.svc with now := ft } } }
  | none => s

/-- Component teardown as the source implements it: App.tsx registers no
effect cleanup for `scrollTimeoutRef` (no `useEffect` teardown calls
`clearTimeout` on it — the only `clearTimeout(scrollTimeoutRef.current)`
is inside `onBodyScroll` itself), so unmounting leaves an armed debounce
timer untouched. -/
def unmountCleanup (s : ScrollState) : ScrollState := s

/-- Two timed scroll events in burst order: strictly increasing arrival
times less than 300ms apart. -/
def scrollBurstR (a b : Nat × ScrollEvent) : Prop :=
  a.1 < b.1 ∧ b.1 < a.1 + 300

/-!
### Concrete fixtures for counterexamples and witnesses -/

/-- A concrete row (the first sample-data row). -/
def sampleRow : RowData :=
  { id := 1, product := "MacBook Pro 16", category := "Electronics"
    price := 2499, quantity := 12, inStock := true
    lastUpdated := "2024-01-15" }

/-- A concrete row family indexed by the displayed row index. -/
def rowFor (i : Int) : RowData :=
  { id := i, product := "Product", category := "Office"
    price := 10, quantity := 2, inStock := true
    lastUpdated := "2024-01-01" }

/-- A grid whose capability surface reports no rows anywhere. -/
def emptyGrid : GridApi :=
  { getFirstDisplayedRowIndex := -1
    getLastDisplayedRowIndex := -1
    getDisplayedRowAtIndex := fun _ => none
    getSelectedRows := []
    rowNodes := []
    getColumnState := []
    getFilterModel := []
    getDisplayedRowCount := 0 }

/-- A grid displaying rows 3..7, with `rowFor i` at every index. -/
def gridThreeToSeven : GridApi :=
  { getFirstDisplayedRowIndex := 3
    getLastDisplayedRowIndex := 7
    getDisplayedRowAtIndex := fun i => some (rowFor i)
    getSelectedRows := []
    rowNodes := []
    getColumnState := []
    getFilterModel := []
    getDisplayedRowCount := 5 }

/-- A grid with one selected row. -/
def gridOneSelected : GridApi :=
  { emptyGrid with getSelectedRows := [sampleRow] }

/-- Application state at start-up: fresh service, empty React state. -/
def initialApp : AppState :=
  { svc := initialService
    telemetryEvents := []
    stats := { totalEvents := 0, visibleRows := 0, selectedRows := 0 } }

/-- A concrete scroll event. -/
def sampleScroll : ScrollEvent :=
  { direction := "vertical", top := 120, left := 0 }

/-!
## Theorems -/

lemma bufferInsert_eq_take (e : TelemetryEvent) (l : List TelemetryEvent)
    (h : l.length ≤ 50) : bufferInsert e l = (e :: l).take 50 := by
  unfold bufferInsert
  rcases lt_or_eq_of_le h with h' | h'
  · have hle : (e :: l).length ≤ 50 := by simp only [List.length_cons]; omega
    rw [if_neg (by simpa using not_lt.mpr hle), List.take_of_length_le hle]
  · have hlen : (e :: l).length = 51 := by simp [← h']
    rw [if_pos (by omega), List.dropLast_eq_take, hlen]

/-- The buffer/log relation is preserved by a single `send`. -/
lemma send_events_eq (s : ServiceState) (ty : String) (d : TelemetryData)
    (h : s.events = s.log.reverse.take 50) :
    (s.send ty d).2.events = (s.send ty d).2.log.reverse.take 50 := by
  simp only [ServiceState.send, h]
  rw [bufferInsert_eq_take _ _ (by simp)]
  simp [List.take_take]

lemma runSends_events_eq (sends : List (String × TelemetryData)) :
    ∀ s : ServiceState, s.events = s.log.reverse.take 50 →
      (runSends s sends).events = (runSends s sends).log.reverse.take 50 := by
  induction sends with
  | nil => intro s h; simpa [runSends] using h
  | cons p rest ih =>
    intro s h
    obtain ⟨ty, d⟩ := p
    exact ih _ (send_events_eq s ty d h)

/-- C1.  After any sequence of `send` calls on a freshly created telemetry
service, the buffer equals the reversal of the arrival-ordered history
truncated to 50 entries — i.e. it holds exactly the (at most) 50 most
recently sent events, newest first, and its length never exceeds 50. -/
theorem buffer_bound_and_recency (sends : List (String × TelemetryData)) :
    (runSends initialService sends).events
        = (runSends initialService sends).log.reverse.take 50
      ∧ (runSends initialService sends).events.length ≤ 50 := by
  have h := runSends_events_eq sends initialService (by simp [initialService])
  exact ⟨h, by rw [h]; exact List.length_take_le 50 _⟩

lemma runServiceOps_store_ne (eventsRef a : Nat) (hne : a ≠ eventsRef)
    (ops : List ServiceOp) : ∀ h : Heap,
    (runServiceOps eventsRef ops h).store a = h.store a := by
  induction ops with
  | nil => intro h; rfl
  | cons op rest ih =>
    intro h
    cases op with
    | sendOp e => rw [runServiceOps, ih, refSend]; simp [hne]
    | clearOp => rw [runServiceOps, ih, refClear]; simp [hne]

/-- C2, counterexample.  The claim says every consumer read of the buffer
yields a copy, never a live handle, and that what was read is never
retroactively mutated.  But the service object exposes its internal array
directly as the `events` property (`return { events, send, clear }` in
`createTelemetryService`): dereferencing the handle obtained from that
property yields `[]` at read time and `[sampleEvent]` after a later `send`
— the consumer's view is retroactively mutated through the live handle. -/
theorem events_property_is_live_handle :
    (createTelemetryService emptyHeap).2.store (createTelemetryService emptyHeap).1 = []
      ∧ (refSend (createTelemetryService emptyHeap).1 sampleEvent
            (createTelemetryService emptyHeap).2).store
          (createTelemetryService emptyHeap).1 = [sampleEvent] := by
  constructor <;> rfl

/-- C2, amended.  A snapshot taken by spreading (`[...telemetry.events]`,
the way `sendTelemetryEvent` hands the buffer to the UI) is a fresh array:
no later sequence of `send`/`clear` operations on the service changes its
contents, which remain the buffer contents at the moment of the copy.
(The `events` property itself, by contrast, is a live handle — see the
counterexample.) -/
theorem spread_snapshot_immutable (h : Heap) (eventsRef : Nat)
    (ops : List ServiceOp) (hlt : eventsRef < h.next) :
    (runServiceOps eventsRef ops (spreadSnapshot eventsRef h).2).store
        (spreadSnapshot eventsRef h).1
      = h.store eventsRef := by
  rw [runServiceOps_store_ne eventsRef (spreadSnapshot eventsRef h).1 (by
    simp only [spreadSnapshot]; omega)]
  simp [spreadSnapshot]

/-- Witness for C2's amended theorem at a concrete heap: service created in
the empty heap, snapshot taken, then a `send` and a `clear`; the snapshot
still reads as the empty buffer it copied. -/
theorem spread_snapshot_immutable_witness :
    0 < (createTelemetryService emptyHeap).2.next
      ∧ (runServiceOps 0 [ServiceOp.sendOp sampleEvent, ServiceOp.clearOp]
            (spreadSnapshot 0 (createTelemetryService emptyHeap).2).2).store
          (spreadSnapshot 0 (createTelemetryService emptyHeap).2).1
        = (createTelemetryService emptyHeap).2.store 0 :=
  ⟨by decide,
    spread_snapshot_immutable (createTelemetryService emptyHeap).2 0
      [ServiceOp.sendOp sampleEvent, ServiceOp.clearOp] (by decide)⟩

lemma foldl_add_eq_sum (g : RowData → ℚ) :
    ∀ (l : List RowData) (init : ℚ),
      l.foldl (fun s r => s + g r) init = init + (l.map g).sum := by
  intro l
  induction l with
  | nil => intro init; simp
  | cons a t ih =>
    intro init
    simp only [List.foldl_cons, List.map_cons, List.sum_cons, ih]
    ring

lemma filterMap_eq_map_of_forall_some (rowAt : Int → Option RowData)
    (f : Int → RowData) :
    ∀ l : List Int, (∀ i ∈ l, rowAt i = some (f i)) →
      l.filterMap rowAt = l.map f := by
  intro l
  induction l with
  | nil => intro _; rfl
  | cons a t ih =>
    intro h
    simp [List.filterMap_cons, h a (List.mem_cons_self a t),
      ih (fun i hi => h i (List.mem_cons_of_mem a hi))]

lemma intRange_length (first last : Int) :
    (intRange first last).length = (last + 1 - first).toNat := by
  unfold intRange
  rw [List.length_map, List.length_range]

lemma intRange_eq_nil_of_gt {first last : Int} (h : last < first) :
    intRange first last = [] := by
  unfold intRange
  have h0 : (last + 1 - first).toNat = 0 := by omega
  rw [h0]
  rfl

/-- C6.  When the grid capability surface is unavailable (`gridApi` not yet
set), each extractor and the scroll handler is a no-op: the application
state — in particular the event buffer — and the scroll-tracker state are
returned unchanged, so nothing is emitted and no error is raised. -/
theorem extractors_noop_when_grid_unavailable (st : AppState)
    (s : ScrollState) (t : Nat) (ev : ScrollEvent) :
    extractVisibleRowsData none st = st
      ∧ extractSelectedRowsData none st = st
      ∧ extractAllGridData none st = st
      ∧ onBodyScroll none t ev s = s :=
  ⟨rfl, rfl, rfl, rfl⟩

/-- C3 evaluated at the failing input.  On a grid with zero total rows the
full-state extractor computes `avgPrice` as `0 / 0`, which JavaScript
evaluates to `NaN`: the emitted aggregate is `JsNum.nan`, not a defined
sentinel — the claimed division-by-zero guard is absent from the code. -/
theorem avgPrice_nan_on_zero_rows (st : AppState) :
    lastAvgPrice (extractAllGridData (some emptyGrid) st) = some JsNum.nan := by
  simp [extractAllGridData, emptyGrid, lastAvgPrice, lastSent,
    sendTelemetryEvent, ServiceState.send, List.getLast?_concat, jsDiv]

/-- C8.  The selection extractor emits a `selected_rows_extracted` payload
whose `selectedCount` is the number of selected rows, whose `selectedIds`
are their keys in order, and whose `totalSelectedValue` is the sum of
`price × quantity` over the selection; on an empty selection the count is
0, the lists are empty, and the aggregate is the rational 0 (not `NaN`). -/
theorem selection_extractor_aggregates (g : GridApi) (st : AppState) :
    lastSent (extractSelectedRowsData (some g) st)
        = some (TelemetryData.selectedRowsD
            { selectedCount := g.getSelectedRows.length
              selectedRows := g.getSelectedRows
              selectedIds := g.getSelectedRows.map (fun r => r.id)
              totalSelectedValue :=
                (g.getSelectedRows.map (fun r => r.price * r.quantity)).sum })
      ∧ (g.getSelectedRows = [] →
          lastSent (extractSelectedRowsData (some g) st)
            = some (TelemetryData.selectedRowsD
                { selectedCount := 0, selectedRows := [], selectedIds := []
                  totalSelectedValue := 0 })) := by
  constructor
  · simp [extractSelectedRowsData, lastSent, sendTelemetryEvent,
      ServiceState.send, List.getLast?_concat, foldl_add_eq_sum]
  · intro h
    simp [extractSelectedRowsData, lastSent, sendTelemetryEvent,
      ServiceState.send, List.getLast?_concat, h]

/-- Witness for C8 on a concrete empty selection. -/
theorem selection_extractor_empty_witness :
    emptyGrid.getSelectedRows = []
      ∧ lastSent (extractSelectedRowsData (some emptyGrid) initialApp)
          = some (TelemetryData.selectedRowsD
              { selectedCount := 0, selectedRows := [], selectedIds := []
                totalSelectedValue := 0 }) :=
  ⟨rfl, (selection_extractor_aggregates emptyGrid initialApp).2 rfl⟩

/-- C7.  When every index in the displayed inclusive range `[first, last]`
yields a (non-null) row, the viewport extractor emits
`visible_rows_extracted` listing exactly the rows at indices
`first … last` in index order, with their keys in the same order and the
sum of `price × quantity` over them; the row list's length is
`last + 1 - first` (hence 5 for the range `[3, 7]`), and when
`first > last` the range is empty, so the row list is empty and the
`totalValue` aggregate is `0`. -/
theorem viewport_extractor_range (g : GridApi) (f : Int → RowData)
    (st : AppState)
    (hrows : ∀ i ∈ intRange g.getFirstDisplayedRowIndex
        g.getLastDisplayedRowIndex, g.getDisplayedRowAtIndex i = some (f i)) :
    lastSent (extractVisibleRowsData (some g) st)
        = some (TelemetryData.visibleRowsD
            { viewport :=
                { firstRowIndex := g.getFirstDisplayedRowIndex
                  lastRowIndex := g.getLastDisplayedRowIndex
                  visibleRowCount :=
                    ((intRange g.getFirstDisplayedRowIndex
                        g.getLastDisplayedRowIndex).map f).length }
              visibleRows :=
                (intRange g.getFirstDisplayedRowIndex
                    g.getLastDisplayedRowIndex).map f
              visibleProductIds :=
                (intRange g.getFirstDisplayedRowIndex
                    g.getLastDisplayedRowIndex).map (fun i => (f i).id)
              totalValue :=
                ((intRange g.getFirstDisplayedRowIndex
                    g.getLastDisplayedRowIndex).map
                  (fun i => (f i).price * (f i).quantity)).sum })
      ∧ ((intRange g.getFirstDisplayedRowIndex
              g.getLastDisplayedRowIndex).map f).length
          = (g.getLastDisplayedRowIndex + 1 - g.getFirstDisplayedRowIndex).toNat
      ∧ (g.getLastDisplayedRowIndex < g.getFirstDisplayedRowIndex →
          lastSent (extractVisibleRowsData (some g) st)
            = some (TelemetryData.visibleRowsD
                { viewport :=
                    { firstRowIndex := g.getFirstDisplayedRowIndex
                      lastRowIndex := g.getLastDisplayedRowIndex
                      visibleRowCount := 0 }
                  visibleRows := []
                  visibleProductIds := []
                  totalValue := 0 })) := by
  have hcollect :
      (intRange g.getFirstDisplayedRowIndex g.getLastDisplayedRowIndex).filterMap
          g.getDisplayedRowAtIndex
        = (intRange g.getFirstDisplayedRowIndex g.getLastDisplayedRowIndex).map f :=
    filterMap_eq_map_of_forall_some _ f _ hrows
  refine ⟨?_, ?_, ?_⟩
  · simp [extractVisibleRowsData, lastSent, sendTelemetryEvent,
      ServiceState.send, List.getLast?_concat, hcollect, List.map_map,
      foldl_add_eq_sum, Function.comp_def]
  · rw [List.length_map, intRange_length]
  · intro hgt
    have hnil := intRange_eq_nil_of_gt hgt
    simp [extractVisibleRowsData, lastSent, sendTelemetryEvent,
      ServiceState.send, List.getLast?_concat, hnil]

/-- Witness for C7 on a concrete grid displaying rows 3..7: five rows,
keys `[3, 4, 5, 6, 7]` in order. -/
theorem viewport_extractor_range_witness :
    (∀ i ∈ intRange gridThreeToSeven.getFirstDisplayedRowIndex
        gridThreeToSeven.getLastDisplayedRowIndex,
        gridThreeToSeven.getDisplayedRowAtIndex i = some (rowFor i))
      ∧ lastSent (extractVisibleRowsData (some gridThreeToSeven) initialApp)
          = some (TelemetryData.visibleRowsD
              { viewport :=
                  { firstRowIndex := 3, lastRowIndex := 7, visibleRowCount := 5 }
                visibleRows := (intRange 3 7).map rowFor
                visibleProductIds := [3, 4, 5, 6, 7]
                totalValue := 100 })
      ∧ ((intRange 3 7).map rowFor).length = 5 := by
  refine ⟨fun _ _ => rfl, ?_, ?_⟩
  · have h := (viewport_extractor_range gridThreeToSeven rowFor initialApp
      (fun _ _ => rfl)).1
    rw [h]
    have h5 : (5 : Int).toNat = 5 := rfl
    norm_num [gridThreeToSeven, intRange, rowFor, List.range_succ, h5,
      Function.comp_def]
  · rfl

/-- C10.  With an available grid, when no index in `[first, last]` yields
row data (e.g. an empty viewport reported as `first = last = -1`), the
viewport extractor still emits `visible_rows_extracted`: empty row and id
lists, `totalValue = 0`, `viewport.visibleRowCount = 0` (the length of the
collected list, not `last − first + 1`), with the raw queried indices in
`viewport.firstRowIndex`/`lastRowIndex`. -/
theorem viewport_extractor_all_absent (g : GridApi) (st : AppState)
    (hnone : ∀ i ∈ intRange g.getFirstDisplayedRowIndex
        g.getLastDisplayedRowIndex, g.getDisplayedRowAtIndex i = none) :
    lastSent (extractVisibleRowsData (some g) st)
      = some (TelemetryData.visibleRowsD
          { viewport :=
              { firstRowIndex := g.getFirstDisplayedRowIndex
                lastRowIndex := g.getLastDisplayedRowIndex
                visibleRowCount := 0 }
            visibleRows := []
            visibleProductIds := []
            totalValue := 0 }) := by
  have hcollect :
      (intRange g.getFirstDisplayedRowIndex g.getLastDisplayedRowIndex).filterMap
          g.getDisplayedRowAtIndex = [] :=
    List.filterMap_eq_nil_iff.mpr hnone
  simp [extractVisibleRowsData, lastSent, sendTelemetryEvent,
    ServiceState.send, List.getLast?_concat, hcollect]

/-- Witness for C10 on the concrete empty-viewport grid
(`first = last = -1`, every index null). -/
theorem viewport_extractor_all_absent_witness :
    (∀ i ∈ intRange emptyGrid.getFirstDisplayedRowIndex
        emptyGrid.getLastDisplayedRowIndex,
        emptyGrid.getDisplayedRowAtIndex i = none)
      ∧ lastSent (extractVisibleRowsData (some emptyGrid) initialApp)
          = some (TelemetryData.visibleRowsD
              { viewport :=
                  { firstRowIndex := -1, lastRowIndex := -1, visibleRowCount := 0 }
                visibleRows := []
                visibleProductIds := []
                totalValue := 0 }) :=
  ⟨fun _ _ => rfl, viewport_extractor_all_absent emptyGrid initialApp (fun _ _ => rfl)⟩

/-- C9.  Selecting a row (grid state `g1`) and then deselecting it (grid
state `g0`, whose selection is back to the pre-selection one) sends exactly
one more `row_selected` event, carrying the row's key, its full data and
the fixed `"user_click"` source tag; the deselection call sends nothing
(the history is unchanged), while the observable selected-row count is
refreshed on both transitions and ends back at its pre-selection value. -/
theorem selection_asymmetry (g1 g0 : GridApi) (st : AppState) (r : RowData)
    (hpre : g0.getSelectedRows.length = st.stats.selectedRows) :
    rowSelectedCount (onRowSelected (some g0) false (some r)
          (onRowSelected (some g1) true (some r) st))
        = rowSelectedCount st + 1
      ∧ lastSent (onRowSelected (some g1) true (some r) st)
          = some (TelemetryData.rowSelectedD
              { rowId := r.id, rowData := r, selectionSource := "user_click" })
      ∧ (onRowSelected (some g0) false (some r)
            (onRowSelected (some g1) true (some r) st)).svc.log
          = (onRowSelected (some g1) true (some r) st).svc.log
      ∧ (onRowSelected (some g0) false (some r)
            (onRowSelected (some g1) true (some r) st)).stats.selectedRows
          = st.stats.selectedRows := by
  refine ⟨?_, ?_, ?_, ?_⟩ <;>
    simp [onRowSelected, rowSelectedCount, lastSent, sendTelemetryEvent,
      ServiceState.send, List.filter_append, List.getLast?_concat, hpre]

/-- Witness for C9 on concrete grids: one selected row during the
selection, none after the deselection. -/
theorem selection_asymmetry_witness :
    emptyGrid.getSelectedRows.length = initialApp.stats.selectedRows
      ∧ rowSelectedCount (onRowSelected (some emptyGrid) false (some sampleRow)
            (onRowSelected (some gridOneSelected) true (some sampleRow) initialApp))
          = rowSelectedCount initialApp + 1 :=
  ⟨rfl, (selection_asymmetry gridOneSelected emptyGrid initialApp sampleRow rfl).1⟩

/-- Processing the rest of a burst while a timer armed by its previous
event is pending: each arrival comes before the pending fire time, so the
timer never fires mid-burst; it is cancelled and re-armed each time,
leaving the timer of the burst's last event pending and nothing emitted. -/
lemma runScrollLoop_pending (gridAt : Nat → GridApi) :
    ∀ (rest : List (Nat × ScrollEvent)) (tp : Nat) (evp : ScrollEvent)
      (app : AppState),
      List.Chain' scrollBurstR ((tp, evp) :: rest) →
      runScrollLoop gridAt rest ⟨some (tp + 300, evp), app⟩
        = ⟨some ((rest.getLastD (tp, evp)).1 + 300,
            (rest.getLastD (tp, evp)).2), app⟩ := by
  intro rest
  induction rest with
  | nil => intro tp evp app _; rfl
  | cons hd tl ih =>
    intro tp evp app hchain
    obtain ⟨t1, ev1⟩ := hd
    have hR : scrollBurstR (tp, evp) (t1, ev1) := (List.chain'_cons.mp hchain).1
    have hfire : fireDue gridAt t1 ⟨some (tp + 300, evp), app⟩
        = ⟨some (tp + 300, evp), app⟩ := by
      have hnle : ¬ tp + 300 ≤ t1 := by
        have := hR.2
        omega
      simp [fireDue, hnle]
    rw [runScrollLoop, hfire]
    have harm : onBodyScroll (some (gridAt t1)) t1 ev1 ⟨some (tp + 300, evp), app⟩
        = ⟨some (t1 + 300, ev1), app⟩ := rfl
    rw [harm, ih t1 ev1 app (List.chain'_cons.mp hchain).2, List.getLastD_cons]

/-- C4.  For a burst of scroll events whose consecutive arrivals are less
than 300ms apart, followed by silence, exactly one `grid_scrolled` event is
sent: arming while armed cancels and replaces the pending timer, so the
history grows by a single event, timestamped 300ms after the burst's last
arrival, whose payload is built from the grid state re-queried at that fire
time (and carries the last triggering event's direction and offsets); the
timer handle is released. -/
theorem debounce_single_emission (gridAt : Nat → GridApi)
    (burst : List (Nat × ScrollEvent)) (t0 : Nat) (ev0 : ScrollEvent)
    (app : AppState)
    (hchain : List.Chain' scrollBurstR ((t0, ev0) :: burst)) :
    (drainTimer gridAt (runScrollLoop gridAt ((t0, ev0) :: burst)
          ⟨none, app⟩)).app.svc.log
        = app.svc.log
          ++ [{ id := app.svc.nextId
                eventType := "grid_scrolled"
                timestamp := (burst.getLastD (t0, ev0)).1 + 300
                data := TelemetryData.scrolledD
                  (scrolledPayload (gridAt ((burst.getLastD (t0, ev0)).1 + 300))
                    (burst.getLastD (t0, ev0)).2) }]
      ∧ (drainTimer gridAt (runScrollLoop gridAt ((t0, ev0) :: burst)
            ⟨none, app⟩)).scrollTimeoutRef = none := by
  have hstep : runScrollLoop gridAt ((t0, ev0) :: burst) ⟨none, app⟩
      = runScrollLoop gridAt burst ⟨some (t0 + 300, ev0), app⟩ := rfl
  rw [hstep, runScrollLoop_pending gridAt burst t0 ev0 app hchain]
  constructor
  · simp [drainTimer, scrollTimerFire, sendTelemetryEvent, ServiceState.send]
  · rfl

/-- Witness for C4 on a concrete burst at t = 0, 50, 100ms: one
`grid_scrolled` event, timestamped 400 = 100 + 300. -/
theorem debounce_single_emission_witness :
    List.Chain' scrollBurstR
        [(0, sampleScroll), (50, sampleScroll), (100, sampleScroll)]
      ∧ (drainTimer (fun _ => gridThreeToSeven)
            (runScrollLoop (fun _ => gridThreeToSeven)
              [(0, sampleScroll), (50, sampleScroll), (100, sampleScroll)]
              ⟨none, initialApp⟩)).app.svc.log
          = initialApp.svc.log
            ++ [{ id := initialApp.svc.nextId
                  eventType := "grid_scrolled"
                  timestamp := 400
                  data := TelemetryData.scrolledD
                    (scrolledPayload gridThreeToSeven sampleScroll) }] := by
  have hchain : List.Chain' scrollBurstR
      [(0, sampleScroll), (50, sampleScroll), (100, sampleScroll)] := by
    norm_num [List.chain'_cons, scrollBurstR]
  exact ⟨hchain,
    (debounce_single_emission (fun _ => gridThreeToSeven)
      [(50, sampleScroll), (100, sampleScroll)] 0 sampleScroll initialApp
      hchain).1⟩

/-- C5 fails on the code: App.tsx registers no unmount cleanup for
`scrollTimeoutRef` (the only `clearTimeout` on it is inside `onBodyScroll`),
so tearing the tracker down while a timer is armed leaves it armed, and the
timer fires after teardown: here a scroll at t = 0 arms the 300ms timer,
the component unmounts during the quiet window cancelling nothing, and a
`grid_scrolled` event is still emitted at t = 300. -/
theorem scroll_timer_fires_after_unmount :
    (unmountCleanup (onBodyScroll (some gridThreeToSeven) 0 sampleScroll
          ⟨none, initialApp⟩)).scrollTimeoutRef = some (300, sampleScroll)
      ∧ (drainTimer (fun _ => gridThreeToSeven)
            (unmountCleanup (onBodyScroll (some gridThreeToSeven) 0 sampleScroll
              ⟨none, initialApp⟩))).app.svc.log
          = [{ id := 0, eventType := "grid_scrolled", timestamp := 300
               data := TelemetryData.scrolledD
                 (scrolledPayload gridThreeToSeven sampleScroll) }] :=
  ⟨rfl, rfl⟩

end Grid
